import Mathlib

/-
  Verification development for the Scene State Synchronization & Publishing
  Engine (decentraland-style kernel).

  Shallow embedding of:
    - src/packages/shared/apis/SceneStateStorageController/SceneStateStorageController.ts
    - src/packages/scene-system/stateful.scene.system.ts

  External collaborators (builder backend, content client, identity provider,
  renderer channel, persistent storage) are modelled as explicit environments
  recording the outcome of each call; every observable call issued by the
  controller is recorded in a trace of actions.
-/

namespace SceneKernel

/-! ## Wire-format data model

`SerializedSceneState` as used throughout SceneStateStorageController.ts:
a flat list of entities, each an ordered list of `(type, value)` components.
Component values are modelled with the one field the controller inspects
(`value.assetId`, see `getAllAssets` / `getAllBuilderAssets`) plus an opaque
payload. -/

structure ComponentValue where
  assetId : Option String
  payload : String
  deriving Repr, DecidableEq

structure SerializedComponent where
  type : Nat
  value : ComponentValue
  deriving Repr, DecidableEq

structure SerializedEntity where
  id : String
  components : List SerializedComponent
  deriving Repr, DecidableEq

structure SerializedSceneState where
  entities : List SerializedEntity
  deriving Repr, DecidableEq

/-! ## Storable format and its translators

`StorableSceneStateTranslation` is repository code that is not part of the
provided sources (only its import site is). It is therefore modelled from the
spec. -/

structure StorableEntity where
  id : String
  components : List SerializedComponent
  deriving Repr, DecidableEq

structure StorableSceneState where
  schemaVersion : Nat
  entities : List StorableEntity
  deriving Repr, DecidableEq

/-- Insertion into a component list sorted by component type. -/
def insertByType (c : SerializedComponent) : List SerializedComponent → List SerializedComponent
  | [] => [c]
  | d :: ds => if c.type ≤ d.type then c :: d :: ds else d :: insertByType c ds

/-- Sort a component list by component type (deterministic key ordering). -/
def sortComponents : List SerializedComponent → List SerializedComponent
  | [] => []
  | c :: cs => insertByType c (sortComponents cs)

/-- Modelled from the spec: `fromSerializedStateToStorableFormat` from the
missing module `StorableSceneStateTranslation`. Per spec section 4.4 the
storable format "differs from wire format only in being suitable for stable
hashing (deterministic key ordering)": entities are kept in order, components
are put in a deterministic order, and a schema version is attached. -/
def fromSerializedStateToStorableFormat (s : SerializedSceneState) : StorableSceneState :=
  { schemaVersion := 1
    entities := s.entities.map fun e => { id := e.id, components := sortComponents e.components } }

/-- Modelled from the spec: `fromStorableFormatToSerializedState` from the
missing module `StorableSceneStateTranslation`; the inverse projection back
to the wire format. -/
def fromStorableFormatToSerializedState (s : StorableSceneState) : SerializedSceneState :=
  { entities := s.entities.map fun e => { id := e.id, components := e.components } }

/-- Structural equivalence of two wire-format states modulo the order of each
entity's component list: same entities in the same order, with the same id and
a permutation of the same components. -/
def EquivUpToComponentOrder (a b : SerializedSceneState) : Prop :=
  List.Forall₂ (fun (x y : SerializedEntity) => x.id = y.id ∧ x.components.Perm y.components)
    a.entities b.entities

theorem insertByType_perm (c : SerializedComponent) (l : List SerializedComponent) :
    (insertByType c l).Perm (c :: l) := by
  induction l with
  | nil => simp [insertByType]
  | cons d ds ih =>
      by_cases h : c.type ≤ d.type
      · simp [insertByType, h]
      · simp only [insertByType, h, if_false]
        exact ((ih.cons d).trans (List.Perm.swap c d ds))

theorem sortComponents_perm (l : List SerializedComponent) :
    (sortComponents l).Perm l := by
  induction l with
  | nil => simp [sortComponents]
  | cons c cs ih =>
      exact (insertByType_perm c (sortComponents cs)).trans (ih.cons c)

/-- Helper round-trip fact shared by several results: decoding the encoding of
a wire-format state yields the same entities with permuted components. -/
theorem storable_roundtrip_equiv (s : SerializedSceneState) :
    EquivUpToComponentOrder
      (fromStorableFormatToSerializedState (fromSerializedStateToStorableFormat s)) s := by
  unfold EquivUpToComponentOrder fromStorableFormatToSerializedState
    fromSerializedStateToStorableFormat
  simp only [List.map_map]
  induction s.entities with
  | nil => simp
  | cons e es ih =>
      simp only [List.map_cons, List.forall₂_cons]
      exact ⟨⟨rfl, sortComponents_perm e.components⟩, ih⟩

/-! ## Asset reference collection

`getAllAssets` and `getAllBuilderAssets` both collect, into a JS `Set`, the
`assetId` of every component whose `type` is `CLASS_ID.GLTF_SHAPE` and whose
`value.assetId` is truthy, iterating entities and components in order. A JS
`Set` deduplicates keeping the first occurrence, and spreading it back into an
array preserves insertion order. -/

/-- `CLASS_ID.GLTF_SHAPE` from the external package `@dcl/legacy-ecs`: the
numeric tag of GLTF shape components. Its concrete value is immaterial here;
it is only used as an opaque component-type tag. -/
def GLTF_SHAPE : Nat := 54

/-- JS truthiness of `value.assetId`: present and not the empty string. -/
def truthyAssetId (v : ComponentValue) : Bool :=
  match v.assetId with
  | some s => s ≠ ""
  | none => false

/-- The filter used by `getAllAssets` / `getAllBuilderAssets`:
`type === CLASS_ID.GLTF_SHAPE && value.assetId`. -/
def hasAssetRef (c : SerializedComponent) : Bool :=
  c.type == GLTF_SHAPE && truthyAssetId c.value

/-- All (possibly repeated) asset ids of a state, in iteration order. -/
def rawAssetIds (s : SerializedSceneState) : List String :=
  s.entities.flatMap fun e =>
    (e.components.filter hasAssetRef).map fun c => c.value.assetId.getD ""

/-- JS `Set.add`: append unless already present. -/
def jsSetInsert (l : List String) (x : String) : List String :=
  if x ∈ l then l else l ++ [x]

/-- Build a JS `Set` from a list, keeping first occurrences in order. -/
def jsSetFrom (l : List String) : List String :=
  l.foldl jsSetInsert []

/-- The deduplicated asset-id list `[...assetIds]` that the controller passes
to the builder backend. -/
def collectAssetIds (s : SerializedSceneState) : List String :=
  jsSetFrom (rawAssetIds s)

theorem jsSetInsert_nodup {l : List String} (h : l.Nodup) (x : String) :
    (jsSetInsert l x).Nodup := by
  unfold jsSetInsert
  by_cases hx : x ∈ l
  · simpa [hx] using h
  · simp [hx, List.nodup_append, h]

theorem mem_jsSetInsert {l : List String} {x y : String} :
    y ∈ jsSetInsert l x ↔ y ∈ l ∨ y = x := by
  unfold jsSetInsert
  by_cases hx : x ∈ l
  · simp only [hx, if_true]
    constructor
    · exact fun h => Or.inl h
    · rintro (h | rfl)
      · exact h
      · exact hx
  · simp [hx]

theorem jsSetFrom_aux_nodup (l acc : List String) (h : acc.Nodup) :
    (l.foldl jsSetInsert acc).Nodup := by
  induction l generalizing acc with
  | nil => simpa using h
  | cons a as ih => exact ih _ (jsSetInsert_nodup h a)

theorem jsSetFrom_nodup (l : List String) : (jsSetFrom l).Nodup :=
  jsSetFrom_aux_nodup l [] List.nodup_nil

theorem mem_jsSetFrom_aux (l : List String) (acc : List String) (y : String) :
    y ∈ l.foldl jsSetInsert acc ↔ y ∈ acc ∨ y ∈ l := by
  induction l generalizing acc with
  | nil => simp
  | cons a as ih =>
      simp only [List.foldl_cons, ih, mem_jsSetInsert, List.mem_cons]
      tauto

theorem mem_jsSetFrom (l : List String) (y : String) :
    y ∈ jsSetFrom l ↔ y ∈ l := by
  unfold jsSetFrom
  simpa using mem_jsSetFrom_aux l [] y

/-- A state references asset id `x` exactly when some entity has a GLTF shape
component whose truthy `assetId` is `x`. -/
def ReferencesAsset (s : SerializedSceneState) (x : String) : Prop :=
  ∃ e ∈ s.entities, ∃ c ∈ e.components,
    c.type = GLTF_SHAPE ∧ c.value.assetId = some x ∧ x ≠ ""

theorem mem_rawAssetIds (s : SerializedSceneState) (x : String) :
    x ∈ rawAssetIds s ↔ ReferencesAsset s x := by
  unfold rawAssetIds ReferencesAsset
  simp only [List.mem_flatMap, List.mem_map, List.mem_filter]
  constructor
  · rintro ⟨e, he, c, ⟨hc, href⟩, hx⟩
    refine ⟨e, he, c, hc, ?_⟩
    unfold hasAssetRef truthyAssetId at href
    rcases hid : c.value.assetId with _ | s0
    · rw [hid] at href; simp at href
    · rw [hid] at href
      simp only [Bool.and_eq_true, beq_iff_eq, decide_eq_true_eq] at href
      rw [hid] at hx
      simp only [Option.getD_some] at hx
      refine ⟨href.1, ?_, ?_⟩
      · rw [hx]
      · rw [← hx]
        exact href.2
  · rintro ⟨e, he, c, hc, ht, hid, hne⟩
    refine ⟨e, he, c, ⟨hc, ?_⟩, ?_⟩
    · unfold hasAssetRef truthyAssetId
      rw [hid, ht]
      simp [hne]
    · rw [hid]
      rfl

theorem mem_collectAssetIds (s : SerializedSceneState) (x : String) :
    x ∈ collectAssetIds s ↔ ReferencesAsset s x := by
  unfold collectAssetIds
  rw [mem_jsSetFrom]
  exact mem_rawAssetIds s x

theorem collectAssetIds_nodup (s : SerializedSceneState) :
    (collectAssetIds s).Nodup :=
  jsSetFrom_nodup _

/-! ## Assets and content paths -/

/-- One entry of an asset's file manifest (`asset.mappings`): relative file
name and content hash. -/
structure AssetMapping where
  file : String
  hash : String
  deriving Repr, DecidableEq

/-- A converted asset as used by `downloadAssetFiles`: its base download URL
and its file manifest. -/
structure Asset where
  id : String
  baseUrl : String
  mappings : List AssetMapping
  deriving Repr, DecidableEq

/-- Modelled from the spec: the `CONTENT_PATH` constants live in the missing
module `types.ts`; spec section 6 fixes the logical paths of a Deployment
Bundle (scene definition document, generated game document, scene metadata
document, thumbnail image, asset manifest document, an assets folder).
The concrete strings are representative; only their distinctness and the
folder prefix matter. -/
def DEFINITION_FILE : String := "scene-state-definition.json"

def BUNDLED_GAME_FILE : String := "bin/game.js"

def SCENE_FILE : String := "scene.json"

def SCENE_THUMBNAIL : String := "thumbnail.png"

def ASSETS_FILE : String := "assets.json"

def MODELS_FOLDER : String := "models"

/-- The five fixed logical paths bound by every non-debug publish. -/
def fixedBundlePaths : List String :=
  [DEFINITION_FILE, BUNDLED_GAME_FILE, SCENE_FILE, SCENE_THUMBNAIL, ASSETS_FILE]

/-! ## JS `Map` semantics

`downloadAssetFiles` and the `entityFiles` grouping both build JS `Map`s from
entry sequences: a later entry with an existing key overwrites in place, a new
key is appended. -/

/-- `Map.set` on an association list. -/
def mapSet (m : List (String × String)) (k v : String) : List (String × String) :=
  if m.any (fun p => p.1 == k) then
    m.map (fun p => if p.1 == k then (k, v) else p)
  else m ++ [(k, v)]

/-- `new Map(entries)`: fold `Map.set` over the entry list. -/
def mapFromEntries (l : List (String × String)) : List (String × String) :=
  l.foldl (fun m p => mapSet m p.1 p.2) []

/-- The keys of an association-list map. -/
def mapKeys (m : List (String × String)) : List String :=
  m.map (fun p => p.1)

/-- The path-to-url map gathered by `downloadAssetFiles`: for each asset in
order, for each of its mappings in order,
`allMappings.set(MODELS_FOLDER + "/" + file, baseUrl + "/" + hash)`. -/
def allMappings (assets : List Asset) : List (String × String) :=
  assets.foldl
    (fun m a =>
      a.mappings.foldl
        (fun m mp => mapSet m (MODELS_FOLDER ++ "/" ++ mp.file) (a.baseUrl ++ "/" ++ mp.hash))
        m)
    []

/-- `Promise.all` over the downloads: succeed with the path-to-buffer entry
list when every fetch succeeds, fail with the first failing fetch's error
otherwise. -/
def downloadAll (dl : String → Except String String) :
    List (String × String) → Except String (List (String × String))
  | [] => Except.ok []
  | (p, u) :: rest =>
      match dl u with
      | Except.error e => Except.error e
      | Except.ok b =>
          match downloadAll dl rest with
          | Except.error e => Except.error e
          | Except.ok tl => Except.ok ((p, b) :: tl)

/-! ## The publish pipeline -/

/-- Observable calls made by the controller to its collaborators. -/
inductive Action where
  | saveStorage (key : String)
  | fetchConvertedAssets (ids : List String)
  | fetchBuilderAssets (ids : List String)
  | downloadFile (path : String) (url : String)
  | buildEntity (filePaths : List String)
  | deployEntity (entityId : String)
  | updateManifest
  | updateThumbnail
  | sendPublishResult (ok : Bool)
  | sendSceneAssets (descriptors : List String)
  | sendBuilderProjectInfo
  | fetchEntity
  | downloadContent (hash : String)
  | fetchManifest
  | createProject
  deriving Repr, DecidableEq

/-- Outcomes of every collaborator call a `publishSceneState` attempt can
make, in the order the code awaits them. -/
structure PublishEnv where
  /-- `base64ToBlob(sceneScreenshot)` followed by `blobToBuffer`: the
  thumbnail bytes, or a thrown decoding error. -/
  blob : Except String String
  /-- `builderApiManager.getConvertedAssets(ids)`: the asset map's values. -/
  convertedAssets : Except String (List Asset)
  /-- `builderApiManager.getBuilderAssets(ids)`: raw builder descriptors. -/
  builderAssets : Except String (List String)
  /-- `fetch(url)` + `blobToBuffer` for one asset file. -/
  download : String → Except String String
  /-- `contentClient.buildEntity(...)`: the file map to deploy and the
  content-addressed entity id. -/
  buildEntityResult : Except String (List (String × String) × String)
  /-- `getCurrentIdentity(store.getState())`. -/
  identity : Option String
  /-- `contentClient.deployEntity(...)`. -/
  deployEntityResult : Except String Unit
  /-- `builderApiManager.updateProjectManifest(...)` inside
  `updateProjectDetails`. -/
  updateManifestResult : Except String Unit
  /-- `builderApiManager.updateProjectThumbnail(...)` inside
  `updateProjectDetails`. -/
  updateThumbnailResult : Except String Unit
  /-- The scene metadata document (`sceneJson` after the display update),
  kept opaque. -/
  sceneJson : String

/-- Modelled from the spec: `createGameFile` lives in the missing module
`SceneStateDefinitionCodeGenerator`; spec section 4.5 calls it "a generated
executable/game description derived from the Scene Graph". Its byte content
is irrelevant to every claim; it is modelled as an opaque total function of
its inputs. -/
def createGameFile (s : SerializedSceneState) (assets : List Asset) : String :=
  "game(" ++ toString s.entities.length ++ "," ++ toString assets.length ++ ")"

/-- The `entityFiles` map grouped before `buildEntity`: the five fixed paths
followed by the downloaded model entries. -/
def entityFiles (storableDoc gameFile sceneJsonDoc thumb assetsDoc : String)
    (models : List (String × String)) : List (String × String) :=
  mapFromEntries
    ([(DEFINITION_FILE, storableDoc),
      (BUNDLED_GAME_FILE, gameFile),
      (SCENE_FILE, sceneJsonDoc),
      (SCENE_THUMBNAIL, thumb),
      (ASSETS_FILE, assetsDoc)] ++ models)

/-- Opaque JSON rendering of the storable document; content immaterial. -/
def storableDoc (st : StorableSceneState) : String :=
  "storable(" ++ toString st.schemaVersion ++ "," ++ toString st.entities.length ++ ")"

/-- Opaque JSON rendering of the builder-asset manifest; content immaterial. -/
def assetsDoc (l : List String) : String :=
  String.intercalate "," l

/-- The body of the non-debug `try` block of `publishSceneState`, from
`base64ToBlob` to `updateProjectDetails`: either the caught error's string or
success, together with the trace of collaborator calls issued before the
outcome. Mirrors SceneStateStorageController.ts lines 159-227. -/
def publishAttempt (env : PublishEnv) (sceneState : SerializedSceneState)
    (storableFormat : StorableSceneState) : Except String Unit × List Action :=
  let ids := collectAssetIds sceneState
  match env.blob with
  | Except.error e => (Except.error e, [])
  | Except.ok thumb =>
    match env.convertedAssets with
    | Except.error e => (Except.error e, [Action.fetchConvertedAssets ids])
    | Except.ok assets =>
      match env.builderAssets with
      | Except.error e =>
          (Except.error e, [Action.fetchConvertedAssets ids, Action.fetchBuilderAssets ids])
      | Except.ok assetsArray =>
        let pre := [Action.fetchConvertedAssets ids, Action.fetchBuilderAssets ids] ++
          (allMappings assets).map fun pu => Action.downloadFile pu.1 pu.2
        match downloadAll env.download (allMappings assets) with
        | Except.error e => (Except.error e, pre)
        | Except.ok models =>
          let files := entityFiles (storableDoc storableFormat)
            (createGameFile sceneState assets) env.sceneJson thumb (assetsDoc assetsArray) models
          let pre := pre ++ [Action.buildEntity (mapKeys files)]
          match env.buildEntityResult with
          | Except.error e => (Except.error e, pre)
          | Except.ok (_deployFiles, entityId) =>
            match env.identity with
            | none =>
                (Except.error "Error: Identity not found when trying to deploy an entity", pre)
            | some _id =>
              let pre := pre ++ [Action.deployEntity entityId]
              match env.deployEntityResult with
              | Except.error e => (Except.error e, pre)
              | Except.ok _ =>
                let pre := pre ++ [Action.updateManifest]
                match env.updateManifestResult with
                | Except.error e => (Except.error e, pre)
                | Except.ok _ =>
                  let pre := pre ++ [Action.updateThumbnail]
                  match env.updateThumbnailResult with
                  | Except.error e => (Except.error e, pre)
                  | Except.ok _ => (Except.ok (), pre)

/-- `{ok, error}` results returned to the external caller. -/
structure DeploymentResult where
  ok : Bool
  error : Option String
  deriving Repr, DecidableEq

/-- Local persistent storage, keyed by string. Modelled from the spec: the
helpers `saveToPersistentStorage` / `getFromPersistentStorage` are repository
code outside the provided sources; the spec attaches no failure mode to them,
so storage is an infallible key-value map. -/
def Storage : Type := String → Option StorableSceneState

/-- `publishSceneState(sceneId, ..., sceneState)`, as a function of the debug
flag, the collaborator outcomes, and the storage state. Returns the
`DeploymentResult`, the trace of collaborator calls (including the final
`SendPublishSceneResult` renderer notification), and the updated storage.
Mirrors SceneStateStorageController.ts lines 142-236. -/
def publishSceneState (debug : Bool) (env : PublishEnv) (sceneId : String)
    (sceneState : SerializedSceneState) (storage : Storage) :
    DeploymentResult × List Action × Storage :=
  let storableFormat := fromSerializedStateToStorableFormat sceneState
  if debug then
    let key := "scene-state-" ++ sceneId
    let storage' : Storage := fun k => if k = key then some storableFormat else storage k
    (⟨true, none⟩, [Action.saveStorage key, Action.sendPublishResult true], storage')
  else
    match publishAttempt env sceneState storableFormat with
    | (Except.ok _, tr) => (⟨true, none⟩, tr ++ [Action.sendPublishResult true], storage)
    | (Except.error e, tr) =>
        (⟨false, some e⟩, tr ++ [Action.sendPublishResult false], storage)

/-- Number of `deployEntity` calls in a trace. -/
def deployCount (tr : List Action) : Nat :=
  tr.countP fun a => match a with | Action.deployEntity _ => true | _ => false

/-- Number of `buildEntity` calls in a trace. -/
def buildCount (tr : List Action) : Nat :=
  tr.countP fun a => match a with | Action.buildEntity _ => true | _ => false

/-! ## Substring search (for error-message claims) -/

/-- Does the second list occur as a leading segment of the first? -/
def startsWithChars : List Char → List Char → Bool
  | _, [] => true
  | [], _ :: _ => false
  | a :: as, b :: bs => a == b && startsWithChars as bs

/-- Does the second list occur as a contiguous segment of the first? -/
def hasSegment : List Char → List Char → Bool
  | [], pat => pat.isEmpty
  | l@(_ :: as), pat => startsWithChars l pat || hasSegment as pat

/-- Does `pat` occur as a substring of `s`? -/
def strContainsSubstring (s pat : String) : Bool :=
  hasSegment s.toList pat.toList

/-! ## Trace counting lemmas -/

theorem deployCount_append (a b : List Action) :
    deployCount (a ++ b) = deployCount a + deployCount b := by
  simp [deployCount, List.countP_append]

theorem deployCount_downloadsMap (l : List (String × String)) :
    deployCount (l.map fun pu => Action.downloadFile pu.1 pu.2) = 0 := by
  induction l with
  | nil => rfl
  | cons p ps ih => simp [deployCount, List.countP_cons, ih]

theorem buildCount_append (a b : List Action) :
    buildCount (a ++ b) = buildCount a + buildCount b := by
  simp [buildCount, List.countP_append]

theorem buildCount_downloadsMap (l : List (String × String)) :
    buildCount (l.map fun pu => Action.downloadFile pu.1 pu.2) = 0 := by
  induction l with
  | nil => rfl
  | cons p ps ih => simp [buildCount, List.countP_cons, ih]

/-! ## Behaviour of the publish attempt under failing collaborators -/

/-- With no signed-in identity, the non-debug publish attempt always errors
and never reaches `deployEntity`, whatever the other collaborators do. -/
theorem publishAttempt_no_identity (env : PublishEnv) (s : SerializedSceneState)
    (st : StorableSceneState) (hid : env.identity = none) :
    ∃ e tr, publishAttempt env s st = (Except.error e, tr) ∧ deployCount tr = 0 := by
  unfold publishAttempt
  rw [hid]
  repeat' split
  all_goals try contradiction
  all_goals refine ⟨_, _, rfl, ?_⟩
  all_goals
    simp [deployCount, deployCount_append, deployCount_downloadsMap,
      List.countP_cons, List.countP_append, List.countP_nil]

/-- With no signed-in identity and every step before the identity check
succeeding, the attempt fails with exactly the identity error message. -/
theorem publishAttempt_identity_error (env : PublishEnv) (s : SerializedSceneState)
    (st : StorableSceneState) (hid : env.identity = none)
    (b : String) (hb : env.blob = Except.ok b)
    (assets : List Asset) (hca : env.convertedAssets = Except.ok assets)
    (arr : List String) (hba : env.builderAssets = Except.ok arr)
    (models : List (String × String))
    (hdl : downloadAll env.download (allMappings assets) = Except.ok models)
    (bres : List (String × String) × String)
    (hbe : env.buildEntityResult = Except.ok bres) :
    (publishAttempt env s st).1 =
      Except.error "Error: Identity not found when trying to deploy an entity" := by
  obtain ⟨fs, eid⟩ := bres
  simp [publishAttempt, hid, hb, hca, hba, hdl, hbe]

/-- A failing fetch for any entry of the mapping makes the whole
`Promise.all` fail. -/
theorem downloadAll_error_of_mem (dl : String → Except String String)
    (m : List (String × String)) (pu : String × String) (hm : pu ∈ m)
    (e : String) (he : dl pu.2 = Except.error e) :
    ∃ e2, downloadAll dl m = Except.error e2 := by
  induction m with
  | nil => cases hm
  | cons q qs ih =>
      obtain ⟨qp, qu⟩ := q
      rcases List.mem_cons.mp hm with rfl | hm2
      · exact ⟨e, by simp [downloadAll, he]⟩
      · cases hdq : dl qu with
        | error e3 => exact ⟨e3, by simp [downloadAll, hdq]⟩
        | ok bq =>
            obtain ⟨e2, h2⟩ := ih hm2
            exact ⟨e2, by simp [downloadAll, hdq, h2]⟩

/-- When the downloads fail, the attempt stops right there: the error is
surfaced and the trace ends with the attempted downloads. -/
theorem publishAttempt_download_failure (env : PublishEnv) (s : SerializedSceneState)
    (st : StorableSceneState)
    (b : String) (hb : env.blob = Except.ok b)
    (assets : List Asset) (hca : env.convertedAssets = Except.ok assets)
    (arr : List String) (hba : env.builderAssets = Except.ok arr)
    (e : String) (hdl : downloadAll env.download (allMappings assets) = Except.error e) :
    publishAttempt env s st =
      (Except.error e,
        [Action.fetchConvertedAssets (collectAssetIds s),
          Action.fetchBuilderAssets (collectAssetIds s)] ++
          (allMappings assets).map fun pu => Action.downloadFile pu.1 pu.2) := by
  simp [publishAttempt, hb, hca, hba, hdl]

/-- Claim C1 (amended): in every non-debug `publishSceneState` call with no
signed-in identity, the result is `{ok := false}` and zero `deployEntity`
calls are issued; when every collaborator step before the identity check
(thumbnail decode, asset metadata fetches, asset downloads, `buildEntity`)
succeeds, the error message contains "Identity not found". -/
theorem publishSceneState_missingIdentity (env : PublishEnv) (sceneId : String)
    (s : SerializedSceneState) (storage : Storage) (hid : env.identity = none) :
    ((publishSceneState false env sceneId s storage).1.ok = false ∧
      deployCount (publishSceneState false env sceneId s storage).2.1 = 0) ∧
    (∀ (b : String), env.blob = Except.ok b →
      ∀ (assets : List Asset), env.convertedAssets = Except.ok assets →
      ∀ (arr : List String), env.builderAssets = Except.ok arr →
      ∀ (models : List (String × String)),
        downloadAll env.download (allMappings assets) = Except.ok models →
      ∀ (bres : List (String × String) × String),
        env.buildEntityResult = Except.ok bres →
      ∃ msg, (publishSceneState false env sceneId s storage).1.error = some msg ∧
        strContainsSubstring msg "Identity not found" = true) := by
  obtain ⟨e, tr, heq, hdc⟩ :=
    publishAttempt_no_identity env s (fromSerializedStateToStorableFormat s) hid
  constructor
  · constructor
    · simp [publishSceneState, heq]
    · have htr : (publishSceneState false env sceneId s storage).2.1 =
          tr ++ [Action.sendPublishResult false] := by
        simp [publishSceneState, heq]
      rw [htr, deployCount_append, hdc]
      rfl
  · intro b hb assets hca arr hba models hdl bres hbe
    have hmsg := publishAttempt_identity_error env s (fromSerializedStateToStorableFormat s)
      hid b hb assets hca arr hba models hdl bres hbe
    rw [heq] at hmsg
    simp only [Except.error.injEq] at hmsg
    refine ⟨e, ?_, ?_⟩
    · simp [publishSceneState, heq]
    · rw [hmsg]
      decide

/-- A collaborator environment where every call succeeds but no identity is
signed in. -/
def envAllOkNoIdentity : PublishEnv :=
  { blob := Except.ok "thumbbytes"
    convertedAssets := Except.ok []
    builderAssets := Except.ok []
    download := fun _ => Except.ok "bytes"
    buildEntityResult := Except.ok ([], "Qm1")
    identity := none
    deployEntityResult := Except.ok ()
    updateManifestResult := Except.ok ()
    updateThumbnailResult := Except.ok ()
    sceneJson := "sceneJsonDoc" }

/-- The empty local storage. -/
def emptyStorage : Storage := fun _ => none

/-- The empty wire-format scene state. -/
def emptyState : SerializedSceneState := ⟨[]⟩

/-- Witness for C1 at a concrete environment. -/
theorem publishSceneState_missingIdentity_witness :
    (publishSceneState false envAllOkNoIdentity "scene1" emptyState emptyStorage).1.ok = false ∧
    deployCount (publishSceneState false envAllOkNoIdentity "scene1" emptyState
      emptyStorage).2.1 = 0 ∧
    strContainsSubstring ((publishSceneState false envAllOkNoIdentity "scene1" emptyState
      emptyStorage).1.error.getD "") "Identity not found" = true := by
  have h := publishSceneState_missingIdentity envAllOkNoIdentity "scene1" emptyState
    emptyStorage rfl
  refine ⟨h.1.1, h.1.2, ?_⟩
  obtain ⟨msg, hmsg, hcon⟩ := h.2 "thumbbytes" rfl [] rfl [] rfl [] rfl ([], "Qm1") rfl
  rw [hmsg]
  exact hcon

/-- An environment with no signed-in identity where the thumbnail decoding
step also fails. -/
def envNoIdentityBadBlob : PublishEnv :=
  { envAllOkNoIdentity with blob := Except.error "Error: bad base64" }

/-- Counterexample for C1 as stated: with the debug flag set and no identity,
`publishSceneState` returns `{ok := true}`; and in a non-debug call with no
identity where an earlier step fails, the error message does not contain
"Identity not found". -/
theorem publishSceneState_missingIdentity_cex :
    (publishSceneState true envAllOkNoIdentity "scene1" emptyState emptyStorage).1.ok = true ∧
    (publishSceneState false envNoIdentityBadBlob "scene1" emptyState emptyStorage).1.error =
      some "Error: bad base64" ∧
    strContainsSubstring "Error: bad base64" "Identity not found" = false := by
  refine ⟨rfl, rfl, ?_⟩
  decide

/-- Claim C2: in a non-debug publish where the pipeline reaches the download
step and any single asset file download fails, the publish aborts with
`{ok := false}` and neither `deployEntity` nor `buildEntity` is ever called. -/
theorem publishSceneState_downloadFailure (env : PublishEnv) (sceneId : String)
    (s : SerializedSceneState) (storage : Storage)
    (b : String) (hb : env.blob = Except.ok b)
    (assets : List Asset) (hca : env.convertedAssets = Except.ok assets)
    (arr : List String) (hba : env.builderAssets = Except.ok arr)
    (pu : String × String) (hm : pu ∈ allMappings assets)
    (e : String) (he : env.download pu.2 = Except.error e) :
    (publishSceneState false env sceneId s storage).1.ok = false ∧
    deployCount (publishSceneState false env sceneId s storage).2.1 = 0 ∧
    buildCount (publishSceneState false env sceneId s storage).2.1 = 0 := by
  obtain ⟨e2, hdl⟩ := downloadAll_error_of_mem env.download (allMappings assets) pu hm e he
  have hpa := publishAttempt_download_failure env s (fromSerializedStateToStorableFormat s)
    b hb assets hca arr hba e2 hdl
  refine ⟨?_, ?_, ?_⟩ <;>
    simp [publishSceneState, hpa, deployCount, buildCount, deployCount_append,
      buildCount_append, deployCount_downloadsMap, buildCount_downloadsMap,
      List.countP_append, List.countP_cons, List.countP_map]

/-- An asset with one file in its manifest. -/
def sampleAsset : Asset := ⟨"abc", "https://cdn", [⟨"m.glb", "h1"⟩]⟩

/-- An environment where the one asset file download fails and everything
else succeeds. -/
def envDownloadFail : PublishEnv :=
  { blob := Except.ok "thumbbytes"
    convertedAssets := Except.ok [sampleAsset]
    builderAssets := Except.ok ["builderAsset"]
    download := fun _ => Except.error "Error: fetch failed"
    buildEntityResult := Except.ok ([], "Qm1")
    identity := some "id1"
    deployEntityResult := Except.ok ()
    updateManifestResult := Except.ok ()
    updateThumbnailResult := Except.ok ()
    sceneJson := "sceneJsonDoc" }

/-- Witness for C2 at a concrete environment. -/
theorem publishSceneState_downloadFailure_witness :
    (publishSceneState false envDownloadFail "scene1" emptyState emptyStorage).1.ok = false ∧
    deployCount (publishSceneState false envDownloadFail "scene1" emptyState
      emptyStorage).2.1 = 0 ∧
    buildCount (publishSceneState false envDownloadFail "scene1" emptyState
      emptyStorage).2.1 = 0 :=
  publishSceneState_downloadFailure envDownloadFail "scene1" emptyState emptyStorage
    "thumbbytes" rfl [sampleAsset] rfl ["builderAsset"] rfl
    ("models/m.glb", "https://cdn/h1") (by decide) "Error: fetch failed" rfl

/-- When everything up to and including `deployEntity` succeeds but the
secondary manifest (or thumbnail) update fails, the attempt surfaces the
update error after having issued exactly one `deployEntity` call. -/
theorem publishAttempt_secondary_failure (env : PublishEnv) (s : SerializedSceneState)
    (st : StorableSceneState)
    (i : String) (hid : env.identity = some i)
    (b : String) (hb : env.blob = Except.ok b)
    (assets : List Asset) (hca : env.convertedAssets = Except.ok assets)
    (arr : List String) (hba : env.builderAssets = Except.ok arr)
    (models : List (String × String))
    (hdl : downloadAll env.download (allMappings assets) = Except.ok models)
    (fs : List (String × String)) (eid : String)
    (hbe : env.buildEntityResult = Except.ok (fs, eid))
    (hde : env.deployEntityResult = Except.ok ())
    (e : String)
    (hupd : env.updateManifestResult = Except.error e ∨
      (env.updateManifestResult = Except.ok () ∧
        env.updateThumbnailResult = Except.error e)) :
    ∃ tr, publishAttempt env s st = (Except.error e, tr) ∧ deployCount tr = 1 := by
  have hcount : ∀ (ks : List String) (tail : List Action), deployCount tail = 0 →
      deployCount ([Action.fetchConvertedAssets (collectAssetIds s),
        Action.fetchBuilderAssets (collectAssetIds s)] ++
        ((allMappings assets).map fun pu => Action.downloadFile pu.1 pu.2) ++
        [Action.buildEntity ks] ++ [Action.deployEntity eid] ++ tail) = 1 := by
    intro ks tail htail
    rw [deployCount_append, deployCount_append, deployCount_append, deployCount_append,
      htail, deployCount_downloadsMap]
    rfl
  rcases hupd with hm | ⟨hm, ht⟩
  · refine ⟨[Action.fetchConvertedAssets (collectAssetIds s),
      Action.fetchBuilderAssets (collectAssetIds s)] ++
      ((allMappings assets).map fun pu => Action.downloadFile pu.1 pu.2) ++
      [Action.buildEntity (mapKeys (entityFiles (storableDoc st) (createGameFile s assets)
        env.sceneJson b (assetsDoc arr) models))] ++
      [Action.deployEntity eid] ++ [Action.updateManifest], ?_, ?_⟩
    · simp [publishAttempt, hid, hb, hca, hba, hdl, hbe, hde, hm]
    · exact hcount _ _ rfl
  · refine ⟨[Action.fetchConvertedAssets (collectAssetIds s),
      Action.fetchBuilderAssets (collectAssetIds s)] ++
      ((allMappings assets).map fun pu => Action.downloadFile pu.1 pu.2) ++
      [Action.buildEntity (mapKeys (entityFiles (storableDoc st) (createGameFile s assets)
        env.sceneJson b (assetsDoc arr) models))] ++
      [Action.deployEntity eid] ++ [Action.updateManifest, Action.updateThumbnail], ?_, ?_⟩
    · simp [publishAttempt, hid, hb, hca, hba, hdl, hbe, hde, hm, ht]
    · exact hcount _ _ rfl

/-- Claim C3 (amended): if `deployEntity` succeeds but the subsequent update
of the editor backend's manifest record fails, `publishSceneState` returns
`{ok := false, error}` carrying the update error; the committed deployment is
not rolled back — exactly one `deployEntity` call occurs in the attempt. -/
theorem publishSceneState_secondaryUpdateFailure (env : PublishEnv) (sceneId : String)
    (s : SerializedSceneState) (storage : Storage)
    (i : String) (hid : env.identity = some i)
    (b : String) (hb : env.blob = Except.ok b)
    (assets : List Asset) (hca : env.convertedAssets = Except.ok assets)
    (arr : List String) (hba : env.builderAssets = Except.ok arr)
    (models : List (String × String))
    (hdl : downloadAll env.download (allMappings assets) = Except.ok models)
    (fs : List (String × String)) (eid : String)
    (hbe : env.buildEntityResult = Except.ok (fs, eid))
    (hde : env.deployEntityResult = Except.ok ())
    (e : String)
    (hupd : env.updateManifestResult = Except.error e ∨
      (env.updateManifestResult = Except.ok () ∧
        env.updateThumbnailResult = Except.error e)) :
    (publishSceneState false env sceneId s storage).1.ok = false ∧
    (publishSceneState false env sceneId s storage).1.error = some e ∧
    deployCount (publishSceneState false env sceneId s storage).2.1 = 1 := by
  obtain ⟨tr, heq, hdc⟩ := publishAttempt_secondary_failure env s
    (fromSerializedStateToStorableFormat s) i hid b hb assets hca arr hba models hdl
    fs eid hbe hde e hupd
  have htr : (publishSceneState false env sceneId s storage).2.1 =
      tr ++ [Action.sendPublishResult false] := by
    simp [publishSceneState, heq]
  refine ⟨?_, ?_, ?_⟩
  · simp [publishSceneState, heq]
  · simp [publishSceneState, heq]
  · rw [htr, deployCount_append, hdc]
    rfl

/-- An environment where the deployment succeeds and only the secondary
manifest update fails. -/
def envSecondaryFail : PublishEnv :=
  { blob := Except.ok "thumbbytes"
    convertedAssets := Except.ok [sampleAsset]
    builderAssets := Except.ok ["builderAsset"]
    download := fun _ => Except.ok "bytes"
    buildEntityResult := Except.ok ([], "Qm1")
    identity := some "id1"
    deployEntityResult := Except.ok ()
    updateManifestResult := Except.error "Error: manifest sync failed"
    updateThumbnailResult := Except.ok ()
    sceneJson := "sceneJsonDoc" }

/-- Counterexample for C3 as stated: at this input `deployEntity` was called
(once, successfully) and the manifest update failed, yet the returned result
is `{ok := false}`, not `{ok := true}` as claimed. -/
theorem publishSceneState_secondaryUpdateFailure_cex :
    deployCount (publishSceneState false envSecondaryFail "scene1" emptyState
      emptyStorage).2.1 = 1 ∧
    (publishSceneState false envSecondaryFail "scene1" emptyState emptyStorage).1.ok = false ∧
    (publishSceneState false envSecondaryFail "scene1" emptyState emptyStorage).1.error =
      some "Error: manifest sync failed" := by
  refine ⟨?_, rfl, rfl⟩
  decide

/-- Witness for C3 (amended) at a concrete environment. -/
theorem publishSceneState_secondaryUpdateFailure_witness :
    (publishSceneState false envSecondaryFail "scene2" emptyState emptyStorage).1.ok = false ∧
    (publishSceneState false envSecondaryFail "scene2" emptyState emptyStorage).1.error =
      some "Error: manifest sync failed" ∧
    deployCount (publishSceneState false envSecondaryFail "scene2" emptyState
      emptyStorage).2.1 = 1 :=
  publishSceneState_secondaryUpdateFailure envSecondaryFail "scene2" emptyState emptyStorage
    "id1" rfl "thumbbytes" rfl [sampleAsset] rfl ["builderAsset"] rfl
    [("models/m.glb", "bytes")] rfl [] "Qm1" rfl rfl
    "Error: manifest sync failed" (Or.inl rfl)

/-! ## Bundle layout (claim C8) -/

theorem mem_mapKeys_mapSet (m : List (String × String)) (k v x : String) :
    x ∈ mapKeys (mapSet m k v) ↔ x ∈ mapKeys m ∨ x = k := by
  unfold mapSet
  by_cases h : m.any fun p => p.1 == k
  · simp only [h, if_true]
    have hkeys : mapKeys (m.map fun p => if p.1 == k then (k, v) else p) = mapKeys m := by
      unfold mapKeys
      rw [List.map_map]
      apply List.map_congr_left
      intro p _
      by_cases hp : p.1 == k
      · simp only [Function.comp_apply, hp, if_true]
        exact (eq_of_beq hp).symm
      · have hne : p.1 ≠ k := by simpa using hp
        simp [Function.comp_apply, hne]
    rw [hkeys]
    obtain ⟨p, hp, hpk⟩ := List.any_eq_true.mp h
    constructor
    · exact fun hx => Or.inl hx
    · rintro (hx | rfl)
      · exact hx
      · exact List.mem_map.mpr ⟨p, hp, eq_of_beq hpk⟩
  · simp only [h, if_false]
    unfold mapKeys
    simp

theorem mem_mapKeys_foldl (l : List (String × String)) (acc : List (String × String))
    (x : String) :
    x ∈ mapKeys (l.foldl (fun m p => mapSet m p.1 p.2) acc) ↔
      x ∈ mapKeys acc ∨ x ∈ l.map fun p => p.1 := by
  induction l generalizing acc with
  | nil => simp
  | cons q qs ih =>
      simp only [List.foldl_cons, List.map_cons, List.mem_cons]
      rw [ih, mem_mapKeys_mapSet]
      tauto

theorem mem_mapKeys_mapFromEntries (l : List (String × String)) (x : String) :
    x ∈ mapKeys (mapFromEntries l) ↔ x ∈ l.map fun p => p.1 := by
  unfold mapFromEntries
  rw [mem_mapKeys_foldl]
  simp [mapKeys]

/-- A successful `Promise.all` of downloads preserves the logical paths. -/
theorem downloadAll_keys (dl : String → Except String String)
    (m : List (String × String)) (models : List (String × String))
    (h : downloadAll dl m = Except.ok models) :
    (models.map fun pu => pu.1) = m.map fun pu => pu.1 := by
  induction m generalizing models with
  | nil =>
      simp only [downloadAll] at h
      cases h
      rfl
  | cons q qs ih =>
      obtain ⟨qp, qu⟩ := q
      simp only [downloadAll] at h
      cases hdq : dl qu with
      | error e => rw [hdq] at h; cases h
      | ok b =>
          rw [hdq] at h
          cases hrest : downloadAll dl qs with
          | error e => rw [hrest] at h; cases h
          | ok tl =>
              rw [hrest] at h
              cases h
              simp [ih tl hrest]

/-- Every key of the gathered path-to-url map is a models-folder path built
from some mapping of some asset. -/
theorem allMappings_keys_shape (assets : List Asset) :
    ∀ k ∈ mapKeys (allMappings assets),
      ∃ a ∈ assets, ∃ mp ∈ a.mappings, k = MODELS_FOLDER ++ "/" ++ mp.file := by
  have inner : ∀ (a : Asset) (ms : List AssetMapping), ∀ (m : List (String × String)),
      (∀ mp ∈ ms, mp ∈ a.mappings) →
      (∀ k ∈ mapKeys m, ∃ x ∈ assets, ∃ mp ∈ x.mappings,
        k = MODELS_FOLDER ++ "/" ++ mp.file) →
      a ∈ assets →
      ∀ k ∈ mapKeys (ms.foldl (fun m mp =>
          mapSet m (MODELS_FOLDER ++ "/" ++ mp.file) (a.baseUrl ++ "/" ++ mp.hash)) m),
        ∃ x ∈ assets, ∃ mp ∈ x.mappings, k = MODELS_FOLDER ++ "/" ++ mp.file := by
    intro a ms
    induction ms with
    | nil =>
        intro m _ hm _ k hk
        exact hm k hk
    | cons mp mps ih =>
        intro m hsub hm ha k hk
        simp only [List.foldl_cons] at hk
        refine ih (mapSet m _ _) (fun q hq => hsub q (List.mem_cons_of_mem _ hq)) ?_ ha k hk
        intro k2 hk2
        rcases (mem_mapKeys_mapSet m _ _ k2).mp hk2 with h2 | rfl
        · exact hm k2 h2
        · exact ⟨a, ha, mp, hsub mp (List.mem_cons_self _ _), rfl⟩
  have outer : ∀ (as : List Asset), ∀ (m : List (String × String)),
      (∀ x ∈ as, x ∈ assets) →
      (∀ k ∈ mapKeys m, ∃ x ∈ assets, ∃ mp ∈ x.mappings,
        k = MODELS_FOLDER ++ "/" ++ mp.file) →
      ∀ k ∈ mapKeys (as.foldl (fun m a => a.mappings.foldl (fun m mp =>
          mapSet m (MODELS_FOLDER ++ "/" ++ mp.file) (a.baseUrl ++ "/" ++ mp.hash)) m) m),
        ∃ x ∈ assets, ∃ mp ∈ x.mappings, k = MODELS_FOLDER ++ "/" ++ mp.file := by
    intro as
    induction as with
    | nil =>
        intro m _ hm k hk
        exact hm k hk
    | cons a as2 ih =>
        intro m hsub hm k hk
        simp only [List.foldl_cons] at hk
        exact ih _ (fun x hx => hsub x (List.mem_cons_of_mem _ hx))
          (inner a a.mappings m (fun q hq => hq) hm (hsub a (List.mem_cons_self _ _))) k hk
  intro k hk
  exact outer assets [] (fun x hx => hx) (by simp [mapKeys]) k hk

/-- Is an action a `buildEntity` call? -/
def isBuildAction : Action → Bool
  | Action.buildEntity _ => true
  | _ => false

/-- The `buildEntity` calls of a trace. -/
def buildActions (tr : List Action) : List Action :=
  tr.filter isBuildAction

theorem buildActions_downloadsMap (l : List (String × String)) :
    (l.map fun pu => Action.downloadFile pu.1 pu.2).filter isBuildAction = [] := by
  induction l with
  | nil => rfl
  | cons p ps ih => simp [isBuildAction, ih]

/-- Once the downloads succeed, the attempt issues exactly one `buildEntity`
call, and it carries the keys of the grouped `entityFiles` map — whatever the
later steps do. -/
theorem publishAttempt_buildActions (env : PublishEnv) (s : SerializedSceneState)
    (st : StorableSceneState)
    (b : String) (hb : env.blob = Except.ok b)
    (assets : List Asset) (hca : env.convertedAssets = Except.ok assets)
    (arr : List String) (hba : env.builderAssets = Except.ok arr)
    (models : List (String × String))
    (hdl : downloadAll env.download (allMappings assets) = Except.ok models) :
    buildActions (publishAttempt env s st).2 =
      [Action.buildEntity (mapKeys (entityFiles (storableDoc st) (createGameFile s assets)
        env.sceneJson b (assetsDoc arr) models))] := by
  unfold publishAttempt
  rw [hb, hca, hba]
  dsimp only
  rw [hdl]
  dsimp only
  repeat' split
  all_goals
    simp [buildActions, List.filter_append, buildActions_downloadsMap, isBuildAction]

/-- The full trace of a non-debug publish is the attempt's trace followed by
the renderer notification. -/
theorem publishSceneState_trace (env : PublishEnv) (sceneId : String)
    (s : SerializedSceneState) (storage : Storage) :
    ∃ flag, (publishSceneState false env sceneId s storage).2.1 =
      (publishAttempt env s (fromSerializedStateToStorableFormat s)).2 ++
        [Action.sendPublishResult flag] := by
  unfold publishSceneState
  rcases hpa : publishAttempt env s (fromSerializedStateToStorableFormat s) with ⟨res, tr⟩
  cases res with
  | ok u => exact ⟨true, by simp [hpa]⟩
  | error e => exact ⟨false, by simp [hpa]⟩

/-- Claim C8: in every non-debug publish that reaches the build step, the
file map passed to `buildEntity` binds exactly the five fixed logical paths
(scene definition document, generated game file, scene metadata document,
scene thumbnail, asset manifest document) plus one entry per downloaded
asset file under the models folder, and nothing else. -/
theorem publishSceneState_bundleLayout (env : PublishEnv) (sceneId : String)
    (s : SerializedSceneState) (storage : Storage)
    (b : String) (hb : env.blob = Except.ok b)
    (assets : List Asset) (hca : env.convertedAssets = Except.ok assets)
    (arr : List String) (hba : env.builderAssets = Except.ok arr)
    (models : List (String × String))
    (hdl : downloadAll env.download (allMappings assets) = Except.ok models) :
    buildActions (publishSceneState false env sceneId s storage).2.1 =
      [Action.buildEntity (mapKeys (entityFiles
        (storableDoc (fromSerializedStateToStorableFormat s))
        (createGameFile s assets) env.sceneJson b (assetsDoc arr) models))] ∧
    (∀ k, k ∈ mapKeys (entityFiles (storableDoc (fromSerializedStateToStorableFormat s))
        (createGameFile s assets) env.sceneJson b (assetsDoc arr) models) ↔
      (k ∈ fixedBundlePaths ∨ k ∈ models.map fun pu => pu.1)) ∧
    ((models.map fun pu => pu.1) = (allMappings assets).map fun pu => pu.1) ∧
    (∀ k ∈ (allMappings assets).map fun pu => pu.1,
      ∃ a ∈ assets, ∃ mp ∈ a.mappings, k = MODELS_FOLDER ++ "/" ++ mp.file) := by
  obtain ⟨flag, htr⟩ := publishSceneState_trace env sceneId s storage
  refine ⟨?_, ?_, downloadAll_keys env.download _ models hdl, ?_⟩
  · rw [htr]
    unfold buildActions
    rw [List.filter_append]
    have h1 := publishAttempt_buildActions env s (fromSerializedStateToStorableFormat s)
      b hb assets hca arr hba models hdl
    unfold buildActions at h1
    rw [h1]
    simp [isBuildAction]
  · intro k
    unfold entityFiles
    rw [mem_mapKeys_mapFromEntries]
    simp only [fixedBundlePaths, List.map_append, List.mem_append, List.map_cons,
      List.map_nil, List.mem_cons, List.not_mem_nil, or_false, List.mem_map]
  · exact allMappings_keys_shape assets

/-- An environment where every collaborator call succeeds. -/
def envHappy : PublishEnv :=
  { blob := Except.ok "thumbbytes"
    convertedAssets := Except.ok [sampleAsset]
    builderAssets := Except.ok ["builderAsset"]
    download := fun _ => Except.ok "bytes"
    buildEntityResult := Except.ok ([], "Qm1")
    identity := some "id1"
    deployEntityResult := Except.ok ()
    updateManifestResult := Except.ok ()
    updateThumbnailResult := Except.ok ()
    sceneJson := "sceneJsonDoc" }

/-- Witness for C8 at a concrete all-successful environment. -/
theorem publishSceneState_bundleLayout_witness :
    buildActions (publishSceneState false envHappy "scene1" emptyState emptyStorage).2.1 =
      [Action.buildEntity (mapKeys (entityFiles
        (storableDoc (fromSerializedStateToStorableFormat emptyState))
        (createGameFile emptyState [sampleAsset]) envHappy.sceneJson "thumbbytes"
        (assetsDoc ["builderAsset"]) [("models/m.glb", "bytes")]))] ∧
    ("models/m.glb" ∈ mapKeys (entityFiles
        (storableDoc (fromSerializedStateToStorableFormat emptyState))
        (createGameFile emptyState [sampleAsset]) envHappy.sceneJson "thumbbytes"
        (assetsDoc ["builderAsset"]) [("models/m.glb", "bytes")]) ↔
      ("models/m.glb" ∈ fixedBundlePaths ∨
        "models/m.glb" ∈ [("models/m.glb", "bytes")].map fun pu => pu.1)) := by
  have h := publishSceneState_bundleLayout envHappy "scene1" emptyState emptyStorage
    "thumbbytes" rfl [sampleAsset] rfl ["builderAsset"] rfl [("models/m.glb", "bytes")] rfl
  exact ⟨h.1, h.2.1 "models/m.glb"⟩

/-! ## Stateful scene system initialization (stateful.scene.system.ts)

`systemDidEnable` is split at its `await` points: each segment between awaits
runs atomically on the single-threaded JS event loop, and renderer-originated
Pull events queued on the engine channel can only be dispatched between
segments (or after initialization completes). A dispatched Pull event is
applied to the local scene state only if `forwardChangesTo` (the
subscription) has already run; before that the handler is not registered and
the event is not applied. -/

/-- Atomic actions of `systemDidEnable`, in program order. -/
inductive InitAction where
  | getParcel
  | getIsEmpty
  | fetchState
  | sendAssets
  | pushState
  | subscribe
  | initFinished
  | listenEvents
  deriving Repr, DecidableEq

/-- The segments of `systemDidEnable` between its `await` points
(lines 45-75): parcel fetch, emptiness check, then — for a non-empty scene —
state fetch and asset resolution, and finally the synchronous block that
pushes the state, subscribes to renderer changes, signals `initFinished` and
registers the event listeners. -/
def initSegments (isEmpty : Bool) : List (List InitAction) :=
  if isEmpty then
    [[InitAction.getParcel], [InitAction.getIsEmpty],
      [InitAction.subscribe, InitAction.initFinished, InitAction.listenEvents]]
  else
    [[InitAction.getParcel], [InitAction.getIsEmpty], [InitAction.fetchState],
      [InitAction.sendAssets],
      [InitAction.pushState, InitAction.subscribe, InitAction.initFinished,
        InitAction.listenEvents]]

/-- One element of an observed initialization trace: an action of the system,
or a dispatched renderer Pull event — applied to the scene state if the
subscription is active, dropped otherwise. -/
inductive TraceItem where
  | act (a : InitAction)
  | pullApplied
  | pullDropped
  deriving Repr, DecidableEq

/-- The Pull events dispatched in one event-loop gap. -/
def gapItems (subscribed : Bool) (n : Nat) : List TraceItem :=
  List.replicate n (if subscribed then TraceItem.pullApplied else TraceItem.pullDropped)

/-- Run the init segments against a scheduler that dispatches `gaps.headD 0`
Pull events before each segment and the remaining gaps after the last one. -/
def runInit (subscribed : Bool) : List (List InitAction) → List Nat → List TraceItem
  | [], gaps => gaps.flatMap fun g => gapItems subscribed g
  | seg :: segs, gaps =>
      gapItems subscribed (gaps.headD 0) ++ seg.map TraceItem.act ++
        runInit (subscribed || seg.contains InitAction.subscribe) segs gaps.tail

/-- The observable trace of one initialization under the given scheduling. -/
def initTrace (isEmpty : Bool) (gaps : List Nat) : List TraceItem :=
  runInit false (initSegments isEmpty) gaps

/-- Number of occurrences of a given action in a trace. -/
def actCount (a : InitAction) (tr : List TraceItem) : Nat :=
  tr.countP fun i => i == TraceItem.act a

/-- Scan a trace for a Pull event applied before the `initFinished` signal;
`true` means the ordering guarantee is violated. -/
def pullBeforeInit (seenInit : Bool) : List TraceItem → Bool
  | [] => false
  | TraceItem.act InitAction.initFinished :: rest => pullBeforeInit true rest
  | TraceItem.pullApplied :: rest =>
      if seenInit then pullBeforeInit seenInit rest else true
  | _ :: rest => pullBeforeInit seenInit rest

theorem actCount_append (a : InitAction) (x y : List TraceItem) :
    actCount a (x ++ y) = actCount a x + actCount a y := by
  simp [actCount, List.countP_append]

theorem actCount_nil (a : InitAction) : actCount a [] = 0 := rfl

theorem actCount_act_cons (a b : InitAction) (rest : List TraceItem) :
    actCount a (TraceItem.act b :: rest) =
      actCount a rest + (if b = a then 1 else 0) := by
  by_cases h : b = a <;> simp [actCount, List.countP_cons, h]

theorem actCount_gapItems (a : InitAction) (b : Bool) (n : Nat) :
    actCount a (gapItems b n) = 0 := by
  induction n with
  | zero => cases b <;> rfl
  | succ k ih =>
      cases b <;>
        simp_all [gapItems, List.replicate_succ, actCount, List.countP_cons]

theorem actCount_tail (a : InitAction) (gaps : List Nat) :
    actCount a (gaps.flatMap fun g => gapItems true g) = 0 := by
  induction gaps with
  | nil => rfl
  | cons g gs ih =>
      rw [List.flatMap_cons, actCount_append, actCount_gapItems, ih]

theorem pullBeforeInit_act_initFinished (s : Bool) (rest : List TraceItem) :
    pullBeforeInit s (TraceItem.act InitAction.initFinished :: rest) =
      pullBeforeInit true rest := rfl

theorem pullBeforeInit_act_other (s : Bool) (a : InitAction) (rest : List TraceItem)
    (h : ¬ a = InitAction.initFinished) :
    pullBeforeInit s (TraceItem.act a :: rest) = pullBeforeInit s rest := by
  cases a <;> first | rfl | exact absurd rfl h

theorem pullBeforeInit_gapDropped (s : Bool) (n : Nat) (rest : List TraceItem) :
    pullBeforeInit s (gapItems false n ++ rest) = pullBeforeInit s rest := by
  induction n with
  | zero => simp [gapItems]
  | succ k ih =>
      simp_all [gapItems, List.replicate_succ, pullBeforeInit]

theorem pullBeforeInit_gapApplied (n : Nat) (rest : List TraceItem) :
    pullBeforeInit true (gapItems true n ++ rest) = pullBeforeInit true rest := by
  induction n with
  | zero => simp [gapItems]
  | succ k ih =>
      simp_all [gapItems, List.replicate_succ, pullBeforeInit]

theorem pullBeforeInit_tail (gaps : List Nat) :
    pullBeforeInit true (gaps.flatMap fun g => gapItems true g) = false := by
  induction gaps with
  | nil => rfl
  | cons g gs ih =>
      rw [List.flatMap_cons, pullBeforeInit_gapApplied]
      exact ih

/-- Claim C5: in every initialization, for every scheduling of renderer Pull
events around the await points, the "initialization finished" signal is sent
exactly once, and no Pull event is applied to the local scene state before
that signal has been sent. -/
theorem init_finished_once_before_pulls (isEmpty : Bool) (gaps : List Nat) :
    actCount InitAction.initFinished (initTrace isEmpty gaps) = 1 ∧
    pullBeforeInit false (initTrace isEmpty gaps) = false := by
  cases isEmpty <;>
    constructor <;>
    simp [initTrace, initSegments, runInit, List.append_assoc, actCount_append,
      actCount_gapItems, actCount_tail, actCount_act_cons, actCount_nil,
      pullBeforeInit_gapDropped, pullBeforeInit_tail,
      pullBeforeInit_act_initFinished, pullBeforeInit_act_other]

/-- Modelled from the spec: `SceneStateDefinition` (a missing module) is the
in-memory scene graph; `new SceneStateDefinition()` is the graph with zero
entities. The initial scene definition of `systemDidEnable` is the fetched
state for a non-empty parcel and the empty graph otherwise. -/
def initialSceneDefinition (isEmpty : Bool) (fetched : SerializedSceneState) :
    SerializedSceneState :=
  if isEmpty then ⟨[]⟩ else fetched

/-- Claim C6: when the parcel reports empty, initialization builds a scene
definition with zero entities, never calls the state fetch, and still sends
the "initialization finished" signal. -/
theorem emptyParcel_init (gaps : List Nat) (fetched : SerializedSceneState) :
    (initialSceneDefinition true fetched).entities = [] ∧
    actCount InitAction.fetchState (initTrace true gaps) = 0 ∧
    actCount InitAction.initFinished (initTrace true gaps) = 1 := by
  refine ⟨rfl, ?_, ?_⟩ <;>
    simp [initTrace, initSegments, runInit, List.append_assoc, actCount_append,
      actCount_gapItems, actCount_tail, actCount_act_cons, actCount_nil]

/-! ## Public operation boundary (claims C4 and C7)

Every public RPC operation is modelled with an explicit outcome type: a
normal return, or an exception escaping the operation. Operations whose whole
body sits inside `try/catch` can only return; operations without a catch
propagate collaborator rejections and the `getIdentity()` throw. -/

/-- Result of a public RPC operation: a normal return or an escaped
exception. -/
inductive CallOutcome (α : Type) where
  | returns (v : α)
  | throws (e : String)
  deriving Repr

/-- Did the operation return normally? -/
def CallOutcome.isReturns {α : Type} : CallOutcome α → Bool
  | CallOutcome.returns _ => true
  | CallOutcome.throws _ => false

/-- Environment for `sendAssetsToRenderer` / `getAllBuilderAssets`: the
builder backend's response to a `getBuilderAssets` request. -/
structure AssetsEnv where
  getBuilderAssets : List String → Except String (List String)

/-- `sendAssetsToRenderer(state)` — SceneStateStorageController.ts lines
362-377: collects the GLTF asset ids into a set, requests the builder
descriptors for the deduplicated id list, sends them to the renderer via
`SendSceneAssets`, returns "OK". There is no catch: a backend rejection
escapes. -/
def sendAssetsToRenderer (env : AssetsEnv) (state : SerializedSceneState) :
    CallOutcome String × List Action :=
  let ids := collectAssetIds state
  match env.getBuilderAssets ids with
  | Except.error e => (CallOutcome.throws e, [Action.fetchBuilderAssets ids])
  | Except.ok ds =>
      (CallOutcome.returns "OK",
        [Action.fetchBuilderAssets ids, Action.sendSceneAssets ds])

/-- Claim C7: asset resolution collects exactly the asset ids carried by
GLTF-shape components with a (truthy) assetId, requests each distinct id from
the backend exactly once, and forwards the resolved descriptors to the
renderer. -/
theorem sendAssetsToRenderer_spec (env : AssetsEnv) (state : SerializedSceneState)
    (ds : List String)
    (h : env.getBuilderAssets (collectAssetIds state) = Except.ok ds) :
    sendAssetsToRenderer env state =
      (CallOutcome.returns "OK",
        [Action.fetchBuilderAssets (collectAssetIds state), Action.sendSceneAssets ds]) ∧
    (collectAssetIds state).Nodup ∧
    (∀ x, x ∈ collectAssetIds state ↔ ReferencesAsset state x) ∧
    (∀ x, ReferencesAsset state x → (collectAssetIds state).count x = 1) := by
  refine ⟨by simp [sendAssetsToRenderer, h], collectAssetIds_nodup state,
    fun x => mem_collectAssetIds state x, fun x hx => ?_⟩
  exact List.count_eq_one_of_mem (collectAssetIds_nodup state)
    ((mem_collectAssetIds state x).mpr hx)

/-- A GLTF shape component referencing the given asset id. -/
def gltfComp (aid : String) : SerializedComponent :=
  ⟨GLTF_SHAPE, ⟨some aid, "payload"⟩⟩

/-- A scene with a repeated asset reference across entities, a non-shape
component, and a second distinct asset. -/
def sampleSceneState : SerializedSceneState :=
  ⟨[⟨"E1", [⟨1, ⟨none, "transform"⟩⟩, gltfComp "abc"]⟩,
    ⟨"E2", [gltfComp "abc"]⟩,
    ⟨"E3", [gltfComp "xyz"]⟩]⟩

/-- A builder backend answering every asset request with two descriptors. -/
def sampleAssetsEnv : AssetsEnv :=
  ⟨fun _ => Except.ok ["descA", "descX"]⟩

/-- Witness for C7: the repeated id "abc" is requested once. -/
theorem sendAssetsToRenderer_witness :
    sendAssetsToRenderer sampleAssetsEnv sampleSceneState =
      (CallOutcome.returns "OK",
        [Action.fetchBuilderAssets (collectAssetIds sampleSceneState),
          Action.sendSceneAssets ["descA", "descX"]]) ∧
    (collectAssetIds sampleSceneState).Nodup ∧
    (collectAssetIds sampleSceneState).count "abc" = 1 := by
  have h := sendAssetsToRenderer_spec sampleAssetsEnv sampleSceneState
    ["descA", "descX"] rfl
  refine ⟨h.1, h.2.1, ?_⟩
  refine h.2.2.2 "abc" ((h.2.2.1 "abc").mp ?_)
  decide

/-- Environment for the manifest-fetching operations: the identity provider
and the builder backend's manifest response (`error` = rejected promise,
`none` = no manifest, `some` = a manifest already translated to the wire
format — the translation itself lives in missing modules and is kept
opaque). -/
structure ManifestEnv where
  identity : Option String
  manifest : Except String (Option SerializedSceneState)

/-- `getProjectManifest(projectId)` — lines 58-69. `this.getIdentity()` is
evaluated as an argument before the backend call and throws
"Identity not found..." when no identity is signed in; there is no catch, so
both that throw and a backend rejection escape the operation. -/
def getProjectManifest (env : ManifestEnv) :
    CallOutcome (Option SerializedSceneState) × List Action :=
  match env.identity with
  | none =>
      (CallOutcome.throws "Error: Identity not found when trying to deploy an entity", [])
  | some _ =>
    match env.manifest with
    | Except.error e => (CallOutcome.throws e, [Action.fetchManifest])
    | Except.ok none => (CallOutcome.returns none, [Action.fetchManifest])
    | Except.ok (some m) =>
        (CallOutcome.returns (some m),
          [Action.fetchManifest, Action.sendBuilderProjectInfo])

/-- `getProjectManifestByCoordinates(land)` — lines 71-85: same boundary
behaviour as `getProjectManifest` (identity read first, no catch). -/
def getProjectManifestByCoordinates (env : ManifestEnv) :
    CallOutcome (Option SerializedSceneState) × List Action :=
  match env.identity with
  | none =>
      (CallOutcome.throws "Error: Identity not found when trying to deploy an entity", [])
  | some _ =>
    match env.manifest with
    | Except.error e => (CallOutcome.throws e, [Action.fetchManifest])
    | Except.ok none => (CallOutcome.returns none, [Action.fetchManifest])
    | Except.ok (some m) =>
        (CallOutcome.returns (some m),
          [Action.fetchManifest, Action.sendBuilderProjectInfo])

/-- `createProjectWithCoords(coordinates)` — lines 87-94: no catch; the
identity read and the backend call can throw, and a backend `undefined`
makes the `newProject.project.title` access throw a TypeError before the
`newProject ? true : false` return is reached. -/
def createProjectWithCoords (env : ManifestEnv) : CallOutcome Bool × List Action :=
  match env.identity with
  | none =>
      (CallOutcome.throws "Error: Identity not found when trying to deploy an entity", [])
  | some _ =>
    match env.manifest with
    | Except.error e => (CallOutcome.throws e, [Action.createProject])
    | Except.ok none =>
        (CallOutcome.throws
          "TypeError: Cannot read properties of undefined (reading 'project')",
          [Action.createProject])
    | Except.ok (some _) =>
        (CallOutcome.returns true,
          [Action.createProject, Action.sendBuilderProjectInfo])

/-- Environment for `saveSceneState`: outcomes of the steps of its `try`
block, in program order. `deserializeSceneState` and
`toBuilderFromStateDefinitionFormat` live in missing modules; only whether
they throw matters here. -/
structure SaveEnv where
  deserializeResult : Except String Unit
  toBuilderResult : Except String Unit
  identity : Option String
  updateManifestResult : Except String Unit

/-- `saveSceneState(serializedSceneState)` — lines 96-120: the whole body is
inside `try/catch`, so every failure (malformed payload, missing identity,
backend rejection) is converted to `{ok:false, error}` and returned. -/
def saveSceneState (env : SaveEnv) : CallOutcome DeploymentResult × List Action :=
  match env.deserializeResult with
  | Except.error e => (CallOutcome.returns ⟨false, some e⟩, [])
  | Except.ok _ =>
    match env.toBuilderResult with
    | Except.error e => (CallOutcome.returns ⟨false, some e⟩, [])
    | Except.ok _ =>
      match env.identity with
      | none =>
          (CallOutcome.returns
            ⟨false, some "Error: Identity not found when trying to deploy an entity"⟩, [])
      | some _ =>
        match env.updateManifestResult with
        | Except.error e =>
            (CallOutcome.returns ⟨false, some e⟩, [Action.updateManifest])
        | Except.ok _ => (CallOutcome.returns ⟨true, none⟩, [Action.updateManifest])

/-- Environment for `saveProjectInfo`: outcomes of its `try` block
(`base64ToBlob`, then `updateProjectDetails`) in program order. -/
structure SaveInfoEnv where
  blobResult : Except String Unit
  deserializeResult : Except String Unit
  toBuilderResult : Except String Unit
  identity : Option String
  updateManifestResult : Except String Unit
  updateThumbnailResult : Except String Unit

/-- `saveProjectInfo(...)` — lines 122-140: the whole body is inside
`try/catch`; on any failure it returns `false`, on success `true`. -/
def saveProjectInfo (env : SaveInfoEnv) : CallOutcome Bool × List Action :=
  match env.blobResult with
  | Except.error _ => (CallOutcome.returns false, [])
  | Except.ok _ =>
    match env.deserializeResult with
    | Except.error _ => (CallOutcome.returns false, [])
    | Except.ok _ =>
      match env.toBuilderResult with
      | Except.error _ => (CallOutcome.returns false, [])
      | Except.ok _ =>
        match env.identity with
        | none => (CallOutcome.returns false, [])
        | some _ =>
          match env.updateManifestResult with
          | Except.error _ => (CallOutcome.returns false, [Action.updateManifest])
          | Except.ok _ =>
            match env.updateThumbnailResult with
            | Except.error _ =>
                (CallOutcome.returns false, [Action.updateManifest, Action.updateThumbnail])
            | Except.ok _ =>
                (CallOutcome.returns true, [Action.updateManifest, Action.updateThumbnail])

/-- Environment for `getStoredState` in non-debug mode: the content client's
entity fetch (with the definition-file hash lookup folded in: `error` =
rejected fetch, `ok none` = entity without a definition file), the content
download, and the JSON parse of the downloaded buffer. -/
structure StoredStateEnv where
  fetchEntity : Except String (Option String)
  downloadContent : String → Except String String
  parseStorable : String → Except String StorableSceneState

/-- `getStoredState(sceneId)` — lines 238-271. In debug mode it reads local
persistent storage; otherwise it fetches the scene entity, downloads the
definition file and decodes it. Every failure path is caught (or warned) and
yields `undefined`, never a throw. -/
def getStoredState (debug : Bool) (env : StoredStateEnv) (sceneId : String)
    (storage : Storage) : CallOutcome (Option SerializedSceneState) × List Action :=
  if debug then
    match storage ("scene-state-" ++ sceneId) with
    | some st => (CallOutcome.returns (some (fromStorableFormatToSerializedState st)), [])
    | none => (CallOutcome.returns none, [])
  else
    match env.fetchEntity with
    | Except.error _ => (CallOutcome.returns none, [Action.fetchEntity])
    | Except.ok none => (CallOutcome.returns none, [Action.fetchEntity])
    | Except.ok (some h) =>
      match env.downloadContent h with
      | Except.error _ =>
          (CallOutcome.returns none, [Action.fetchEntity, Action.downloadContent h])
      | Except.ok buf =>
        match env.parseStorable buf with
        | Except.error _ =>
            (CallOutcome.returns none, [Action.fetchEntity, Action.downloadContent h])
        | Except.ok st =>
            (CallOutcome.returns (some (fromStorableFormatToSerializedState st)),
              [Action.fetchEntity, Action.downloadContent h])

/-- Environment for `createProjectFromStateDefinition`: the stored-state
fetch, then the outcomes of the steps in its `try` block. The two
fire-and-forget calls (`updateProjectManifest`, `publishSceneState`) have
their own `.catch` handlers and cannot fail the operation; they are kept out
of this trace. -/
structure CreateProjectEnv where
  storedEnv : StoredStateEnv
  identity : Option String
  assetsFileHash : Option String
  downloadContent : String → Except String String
  builderManifestOk : Except String Bool
  thumbnailHash : Option String

/-- `createProjectFromStateDefinition()` — lines 273-360: the whole body is
inside `try/catch` (with the `getIdentity()` throw also caught), so the
operation always returns, with the serialized scene on success and
`undefined` otherwise. -/
def createProjectFromStateDefinition (debug : Bool) (env : CreateProjectEnv)
    (sceneId : String) (storage : Storage) :
    CallOutcome (Option SerializedSceneState) × List Action :=
  match getStoredState debug env.storedEnv sceneId storage with
  | (CallOutcome.throws _, tr) => (CallOutcome.returns none, tr)
  | (CallOutcome.returns none, tr) => (CallOutcome.returns none, tr)
  | (CallOutcome.returns (some serializedScene), tr) =>
    match env.identity with
    | none => (CallOutcome.returns none, tr)
    | some _ =>
      let step2 :=
        match env.assetsFileHash with
        | none => Except.ok tr
        | some h =>
          match env.downloadContent h with
          | Except.error e => Except.error (e, tr ++ [Action.downloadContent h])
          | Except.ok _ => Except.ok (tr ++ [Action.downloadContent h])
      match step2 with
      | Except.error (_, tr2) => (CallOutcome.returns none, tr2)
      | Except.ok tr2 =>
        match env.builderManifestOk with
        | Except.error _ => (CallOutcome.returns none, tr2)
        | Except.ok false => (CallOutcome.returns none, tr2)
        | Except.ok true =>
          let tr3 := tr2 ++ [Action.sendBuilderProjectInfo, Action.updateManifest]
          match env.thumbnailHash with
          | none => (CallOutcome.returns (some serializedScene), tr3)
          | some h2 =>
            match env.downloadContent h2 with
            | Except.error _ =>
                (CallOutcome.returns none, tr3 ++ [Action.downloadContent h2])
            | Except.ok _ =>
                (CallOutcome.returns (some serializedScene),
                  tr3 ++ [Action.downloadContent h2])

/-- `publishSceneState` at the RPC boundary: the whole fallible body is
caught (non-debug) or infallible (debug, with storage modelled per the
spec), so it always returns its `DeploymentResult`. -/
def publishSceneStateCall (debug : Bool) (env : PublishEnv) (sceneId : String)
    (s : SerializedSceneState) (storage : Storage) :
    CallOutcome DeploymentResult × List Action :=
  let r := publishSceneState debug env sceneId s storage
  (CallOutcome.returns r.1, r.2.1)

/-- Claim C4 (amended): the public operations whose bodies are wrapped in
try/catch — `saveSceneState`, `saveProjectInfo`, `publishSceneState`,
`getStoredState`, `createProjectFromStateDefinition` — return normally (a
value, an optional-absent, a boolean, or an `{ok, error}` result) for every
input and every collaborator outcome; but `getProjectManifest`,
`getProjectManifestByCoordinates`, `createProjectWithCoords` and
`sendAssetsToRenderer` have no catch and can let an exception escape. -/
theorem publicOps_noThrow (se : SaveEnv) (sie : SaveInfoEnv)
    (dbg1 dbg2 dbg3 : Bool) (pe : PublishEnv) (ste : StoredStateEnv)
    (ce : CreateProjectEnv) (sid1 sid2 sid3 : String) (s : SerializedSceneState)
    (st1 st2 st3 : Storage) :
    (saveSceneState se).1.isReturns = true ∧
    (saveProjectInfo sie).1.isReturns = true ∧
    (publishSceneStateCall dbg1 pe sid1 s st1).1.isReturns = true ∧
    (getStoredState dbg2 ste sid2 st2).1.isReturns = true ∧
    (createProjectFromStateDefinition dbg3 ce sid3 st3).1.isReturns = true := by
  refine ⟨?_, ?_, rfl, ?_, ?_⟩
  · unfold saveSceneState
    repeat' split
    all_goals rfl
  · unfold saveProjectInfo
    repeat' split
    all_goals rfl
  · unfold getStoredState
    repeat' split
    all_goals rfl
  · unfold createProjectFromStateDefinition getStoredState
    repeat' split
    all_goals rfl

/-- A manifest environment with no signed-in identity. -/
def manifestEnvNoIdentity : ManifestEnv := ⟨none, Except.ok none⟩

/-- A backend environment whose asset request rejects. -/
def assetsEnvDown : AssetsEnv := ⟨fun _ => Except.error "Error: backend down"⟩

/-- Counterexample for C4 as stated: two of the public operations let
exceptions escape — `getProjectManifest` throws when no identity is signed
in, and `sendAssetsToRenderer` propagates a backend rejection. -/
theorem publicOps_noThrow_cex :
    (getProjectManifest manifestEnvNoIdentity).1 =
      CallOutcome.throws "Error: Identity not found when trying to deploy an entity" ∧
    (sendAssetsToRenderer assetsEnvDown emptyState).1 =
      CallOutcome.throws "Error: backend down" :=
  ⟨rfl, rfl⟩

/-- Claim C9: for every wire-format scene state, encoding to the storable
format (as `publishSceneState` does before persisting or bundling) and
decoding back (as `getStoredState` does) yields a structurally equivalent
scene state, modulo the order of each entity's components. -/
theorem storable_roundtrip (s : SerializedSceneState) :
    EquivUpToComponentOrder
      (fromStorableFormatToSerializedState (fromSerializedStateToStorableFormat s)) s :=
  storable_roundtrip_equiv s

/-- Claim C10: with DEBUG set, `publishSceneState` performs no asset fetch,
no `buildEntity` and no `deployEntity` (the trace holds exactly the storage
write and the renderer notification); it writes the storable-format state to
local storage under "scene-state-<sceneId>" and returns `{ok:true}`; and a
subsequent debug-mode `getStoredState(sceneId)` reads that stored state back
from local storage with no content-server call. -/
theorem publishSceneState_debug (env : PublishEnv) (env2 : StoredStateEnv)
    (sceneId : String) (s : SerializedSceneState) (storage : Storage) :
    (publishSceneState true env sceneId s storage).1 = ⟨true, none⟩ ∧
    (publishSceneState true env sceneId s storage).2.1 =
      [Action.saveStorage ("scene-state-" ++ sceneId), Action.sendPublishResult true] ∧
    (publishSceneState true env sceneId s storage).2.2 ("scene-state-" ++ sceneId) =
      some (fromSerializedStateToStorableFormat s) ∧
    getStoredState true env2 sceneId (publishSceneState true env sceneId s storage).2.2 =
      (CallOutcome.returns (some (fromStorableFormatToSerializedState
        (fromSerializedStateToStorableFormat s))), []) := by
  refine ⟨rfl, rfl, ?_, ?_⟩
  · simp [publishSceneState]
  · simp [publishSceneState, getStoredState]

end SceneKernel
